import Mathlib

/-!
Verification of the token-acquisition and photo-action client of the
picSwipe repository (`src/services/google-photos.ts`).

The TypeScript module holds two module-level mutable variables
(`cachedToken`, `tokenExpiry`) and exposes `listMediaItems`,
`archiveMediaItem`, `favoriteMediaItem` and `deleteMediaItem`, each of
which first calls the internal `getAccessToken`.  We embed the module as
pure functions with explicit state passing: the module-level cache is a
`GpState`, the external collaborators (Firebase auth session, `Date.now()`,
the identity-provider calls and the photos REST API) are an environment
record `AuthEnv` plus explicit fetch-response arguments, outcomes are
`Except`, and every outward call (identity-provider IO and HTTP requests)
is recorded in an effect log so that "no network/IO" properties can be
stated.
-/

/-- Media item shape returned to the UI (interface `MediaItem` in the source). -/
structure MediaItem where
  id : String
  baseUrl : String
  filename : Option String
  mimeType : Option String
deriving DecidableEq, Repr

/-- Raw media item as it appears in the remote list response, before the
display-size suffix is appended to `baseUrl`. -/
structure RawItem where
  id : String
  baseUrl : String
  filename : Option String
  mimeType : Option String
deriving DecidableEq, Repr

/-- Body of the `batchModify` POST request, mirroring the object literal
built in `archiveMediaItem` / `favoriteMediaItem`.  A field the literal
omits is `none`. -/
structure BatchModifyBody where
  mediaItemIds : List String
  updateMask : String
  archive : Option Bool
  favorite : Option Bool
deriving DecidableEq, Repr

/-- Requests the client can issue against the photos REST API, rendered
structurally: `listItems` is `GET /mediaItems?pageSize=N`, `batchModify`
is `POST /mediaItems/{urlId}:batchModify`, `deleteItem` is
`DELETE /mediaItems/{id}`.  Every request carries the bearer token. -/
inductive ApiRequest where
  | listItems (pageSize : Nat) (bearer : String)
  | batchModify (urlId : String) (body : BatchModifyBody) (bearer : String)
  | deleteItem (mediaItemId : String) (bearer : String)
deriving DecidableEq, Repr

/-- Outward effects of the module: the three identity-provider calls made
by `getAccessToken` (`user.getIdTokenResult(true)`, `user.getIdToken()`,
`reauthenticateWithPopup`) and HTTP requests to the photos API. -/
inductive Effect where
  | fetchIdTokenResult
  | fetchIdToken
  | reauthPopup
  | http (req : ApiRequest)
deriving DecidableEq, Repr

/-- Kinds of mutating operations, used to tag the distinct
`Failed to ... media item` error messages. -/
inductive ActionKind where
  | archive
  | favorite
  | delete
deriving DecidableEq, Repr

/-- Errors of the module, one constructor per distinct `throw` site /
message template in the source, plus `network` for a rejected `fetch`
promise (a transport-level error value not created by this module). -/
inductive GpError where
  | notAuthenticated
  | authExpired
  | failedToGetToken
  | fetchMediaItemsFailed (status : Nat)
  | actionFailed (kind : ActionKind)
  | network (msg : String)
deriving DecidableEq, Repr

/-- Module-level mutable cache: `let cachedToken : string | null` and
`let tokenExpiry : number | null`. -/
structure GpState where
  cachedToken : Option String
  tokenExpiry : Option Nat
deriving DecidableEq, Repr

deriving instance DecidableEq for Except

/-- Environment: the authenticated session and identity-provider
behaviour visible to `getAccessToken`.  `currentUser` is whether
`auth.currentUser` is non-null; `now` is `Date.now()`; `idTokenResult`
is the outcome of `user.getIdTokenResult(true)` reduced to the
`claims?.firebase?.sign_in_provider` field (`none` when the claim is
absent); `idToken` is the outcome of `user.getIdToken()`;
`reauthAccessToken` is the outcome of `reauthenticateWithPopup` followed
by `credentialFromResult(...)?.accessToken` (`none` when the credential
carries no access token).  `.error` means the promise rejected. -/
structure AuthEnv where
  currentUser : Bool
  now : Nat
  idTokenResult : Except String (Option String)
  idToken : Except String String
  reauthAccessToken : Except String (Option String)
deriving DecidableEq, Repr

/-- Result of running one operation: the outcome, the cache state after
the run, and the effect log in order of occurrence. -/
structure OpResult (α : Type) where
  result : Except GpError α
  state : GpState
  log : List Effect
deriving DecidableEq, Repr

/-- Condition of the cache fast path,
`cachedToken && tokenExpiry && Date.now() < tokenExpiry`, with
JavaScript truthiness (`null` and the empty string are falsy, `0` is
falsy). -/
def cacheHit (s : GpState) (now : Nat) : Bool :=
  match s.cachedToken, s.tokenExpiry with
  | some t, some e => decide (t ≠ "") && decide (e ≠ 0) && decide (now < e)
  | _, _ => false

/-- Milliseconds in the fixed cache-validity window (`3600000` in the
source, one hour). -/
def cacheWindowMs : Nat := 3600000

/-- Fallback branch of `getAccessToken`: `reauthenticateWithPopup` with the
photos scope, then extraction of the OAuth access token from the
credential.  A truthy access token is cached for one hour and returned;
otherwise the code reaches `throw new Error('Failed to get access token')`
(or the popup rejects), and the surrounding catch rethrows the same
message. -/
def reauthStep (env : AuthEnv) (s : GpState) (log : List Effect) :
    OpResult (Option String) :=
  match env.reauthAccessToken with
  | .error _ => ⟨.error .failedToGetToken, s, log ++ [.reauthPopup]⟩
  | .ok none => ⟨.error .failedToGetToken, s, log ++ [.reauthPopup]⟩
  | .ok (some tok) =>
    if tok ≠ "" then
      ⟨.ok (some tok), ⟨some tok, some (env.now + cacheWindowMs)⟩,
        log ++ [.reauthPopup]⟩
    else ⟨.error .failedToGetToken, s, log ++ [.reauthPopup]⟩

/-- Embedding of `getAccessToken`.  Returns `ok none` when there is no
authenticated session, the cached token on a cache hit, and otherwise
tries the silent path (`getIdTokenResult(true)` then, for the
`google.com` provider, `user.getIdToken()`), falling through to
`reauthStep`; any rejection inside the `try` is caught and replaced by
the single `Failed to get access token` error. -/
def getAccessToken (env : AuthEnv) (s : GpState) : OpResult (Option String) :=
  if env.currentUser = false then ⟨.ok none, s, []⟩
  else if cacheHit s env.now then ⟨.ok s.cachedToken, s, []⟩
  else
    match env.idTokenResult with
    | .error _ => ⟨.error .failedToGetToken, s, [.fetchIdTokenResult]⟩
    | .ok provider =>
      if provider = some "google.com" then
        match env.idToken with
        | .error _ =>
            ⟨.error .failedToGetToken, s, [.fetchIdTokenResult, .fetchIdToken]⟩
        | .ok cred =>
          if cred ≠ "" then
            ⟨.ok (some cred), ⟨some cred, some (env.now + cacheWindowMs)⟩,
              [.fetchIdTokenResult, .fetchIdToken]⟩
          else reauthStep env s [.fetchIdTokenResult, .fetchIdToken]
      else reauthStep env s [.fetchIdTokenResult]

/-- Check `response.ok` of the Fetch API: status in `[200, 300)`. -/
def respOk (status : Nat) : Bool := decide (200 ≤ status) && decide (status < 300)

/-- Shape of the JSON body of the list response together with its HTTP
status.  `mediaItems = none` models `data.mediaItems` being absent
(`undefined`); `some []` is an empty but present array, which is truthy
in JavaScript. -/
structure ListResponse where
  status : Nat
  mediaItems : Option (List RawItem)
deriving DecidableEq, Repr

/-- Per-item transformation applied by `listMediaItems`: copy every field
and append the fixed display-size suffix to `baseUrl`. -/
def transformItem (it : RawItem) : MediaItem :=
  { id := it.id
    baseUrl := it.baseUrl ++ "=w1024-h1024"
    filename := it.filename
    mimeType := it.mimeType }

/-- Embedding of `listMediaItems`.  `listResp` is the outcome of the
single `fetch` (`.error msg` when the promise rejects at transport
level).  The catch block of the source logs and rethrows the caught
error unchanged, so every error value passes through as-is. -/
def listMediaItems (env : AuthEnv) (listResp : Except String ListResponse)
    (s : GpState) : OpResult (List MediaItem) :=
  let r := getAccessToken env s
  match r.result with
  | .error e => ⟨.error e, r.state, r.log⟩
  | .ok none => ⟨.error .notAuthenticated, r.state, r.log⟩
  | .ok (some token) =>
    if token = "" then ⟨.error .notAuthenticated, r.state, r.log⟩
    else
      let req := Effect.http (.listItems 100 token)
      match listResp with
      | .error msg => ⟨.error (.network msg), r.state, r.log ++ [req]⟩
      | .ok resp =>
        if respOk resp.status then
          match resp.mediaItems with
          | none => ⟨.ok [], r.state, r.log ++ [req]⟩
          | some items =>
              ⟨.ok (items.map transformItem), r.state, r.log ++ [req]⟩
        else if resp.status = 401 then
          ⟨.error .authExpired, ⟨none, none⟩, r.log ++ [req]⟩
        else
          ⟨.error (.fetchMediaItemsFailed resp.status), r.state,
            r.log ++ [req]⟩

/-- Request body built by `archiveMediaItem`:
`{ mediaItemIds: [id], updateMask: 'archive', archive: true }`. -/
def archiveBody (id : String) : BatchModifyBody :=
  { mediaItemIds := [id], updateMask := "archive"
    archive := some true, favorite := none }

/-- Request body built by `favoriteMediaItem`:
`{ mediaItemIds: [id], updateMask: 'favorite', favorite: true }`. -/
def favoriteBody (id : String) : BatchModifyBody :=
  { mediaItemIds := [id], updateMask := "favorite"
    archive := none, favorite := some true }

/-- Embedding of `archiveMediaItem`.  `modifyResp` is the HTTP status of
the `batchModify` POST (`.error` when the fetch rejects).  The catch
block replaces whatever was caught with a fresh
`Failed to archive media item` error, so every in-try failure collapses
to `actionFailed .archive`. -/
def archiveMediaItem (env : AuthEnv) (modifyResp : Except String Nat)
    (id : String) (s : GpState) : OpResult Unit :=
  let r := getAccessToken env s
  match r.result with
  | .error e => ⟨.error e, r.state, r.log⟩
  | .ok none => ⟨.error .notAuthenticated, r.state, r.log⟩
  | .ok (some token) =>
    if token = "" then ⟨.error .notAuthenticated, r.state, r.log⟩
    else
      let req := Effect.http (.batchModify id (archiveBody id) token)
      match modifyResp with
      | .error _ => ⟨.error (.actionFailed .archive), r.state, r.log ++ [req]⟩
      | .ok status =>
        if respOk status then ⟨.ok (), r.state, r.log ++ [req]⟩
        else ⟨.error (.actionFailed .archive), r.state, r.log ++ [req]⟩

/-- Embedding of `favoriteMediaItem`; identical to `archiveMediaItem`
with the `favorite` field and error kind. -/
def favoriteMediaItem (env : AuthEnv) (modifyResp : Except String Nat)
    (id : String) (s : GpState) : OpResult Unit :=
  let r := getAccessToken env s
  match r.result with
  | .error e => ⟨.error e, r.state, r.log⟩
  | .ok none => ⟨.error .notAuthenticated, r.state, r.log⟩
  | .ok (some token) =>
    if token = "" then ⟨.error .notAuthenticated, r.state, r.log⟩
    else
      let req := Effect.http (.batchModify id (favoriteBody id) token)
      match modifyResp with
      | .error _ => ⟨.error (.actionFailed .favorite), r.state, r.log ++ [req]⟩
      | .ok status =>
        if respOk status then ⟨.ok (), r.state, r.log ++ [req]⟩
        else ⟨.error (.actionFailed .favorite), r.state, r.log ++ [req]⟩

/-- Embedding of `deleteMediaItem`: a `DELETE /mediaItems/{id}` request;
the catch block replaces any caught error with
`Failed to delete media item`. -/
def deleteMediaItem (env : AuthEnv) (deleteResp : Except String Nat)
    (id : String) (s : GpState) : OpResult Unit :=
  let r := getAccessToken env s
  match r.result with
  | .error e => ⟨.error e, r.state, r.log⟩
  | .ok none => ⟨.error .notAuthenticated, r.state, r.log⟩
  | .ok (some token) =>
    if token = "" then ⟨.error .notAuthenticated, r.state, r.log⟩
    else
      let req := Effect.http (.deleteItem id token)
      match deleteResp with
      | .error _ => ⟨.error (.actionFailed .delete), r.state, r.log ++ [req]⟩
      | .ok status =>
        if respOk status then ⟨.ok (), r.state, r.log ++ [req]⟩
        else ⟨.error (.actionFailed .delete), r.state, r.log ++ [req]⟩

/-- Modelled from the spec: the remote library's per-item flag record.
The remote Google Photos API is an external collaborator whose code is
not in this repository; §4.2 and §6 of the spec describe `batchModify`
as setting the masked flag (`favorite` or `archive`) on the addressed
items, repeating with an already-set flag being a no-op. -/
structure RemoteItem where
  favorite : Bool
  archived : Bool
deriving DecidableEq, Repr

/-- Modelled from the spec: the remote library state, a finite map from
media-item id to its flag record, rendered as an association list. -/
def RemoteState : Type := List (String × RemoteItem)

/-- Modelled from the spec: effect of a `batchModify` body on one item —
the field named by `updateMask` is set to the value the body carries for
it; the other field is untouched. -/
def applyMask (b : BatchModifyBody) (it : RemoteItem) : RemoteItem :=
  if b.updateMask = "favorite" then
    { it with favorite := b.favorite.getD it.favorite }
  else if b.updateMask = "archive" then
    { it with archived := b.archive.getD it.archived }
  else it

/-- Modelled from the spec: the remote state transition for one request.
`batchModify` applies its mask to every addressed item; `listItems` reads
and `deleteItem` is unsupported by the remote API (§4.2), so neither
changes state. -/
def serverStep (rs : RemoteState) (r : ApiRequest) : RemoteState :=
  match r with
  | .batchModify _ b _ =>
      rs.map (fun p => if p.1 ∈ b.mediaItemIds then (p.1, applyMask b p.2) else p)
  | _ => rs

/-- Modelled from the spec: the remote API answers a `batchModify` with
success (HTTP 200) also when the flag is already set — "repeating the
call with the same id and already-set flag is a no-op remotely". -/
def serverBatchModifyStatus : Except String Nat := .ok 200

/-- Fold the remote state over the HTTP requests of an effect log. -/
def serverRunLog (rs : RemoteState) (log : List Effect) : RemoteState :=
  log.foldl (fun acc e => match e with | .http r => serverStep acc r | _ => acc) rs

/-- Combined outcome of running one client operation against the
spec-modelled remote server. -/
structure SysResult where
  result : Except GpError Unit
  state : GpState
  remote : RemoteState

/-- Run `archiveMediaItem` against the spec-modelled server: the client
receives the server's success status and the server applies every request
the client issued. -/
def archiveSystem (env : AuthEnv) (id : String) (s : GpState)
    (rs : RemoteState) : SysResult :=
  let out := archiveMediaItem env serverBatchModifyStatus id s
  ⟨out.result, out.state, serverRunLog rs out.log⟩

/-- Run `favoriteMediaItem` against the spec-modelled server. -/
def favoriteSystem (env : AuthEnv) (id : String) (s : GpState)
    (rs : RemoteState) : SysResult :=
  let out := favoriteMediaItem env serverBatchModifyStatus id s
  ⟨out.result, out.state, serverRunLog rs out.log⟩

/-- Characterisation of the cache fast-path condition. -/
theorem cacheHit_iff (s : GpState) (n : Nat) :
    cacheHit s n = true ↔
      ∃ t e, s.cachedToken = some t ∧ t ≠ "" ∧ s.tokenExpiry = some e ∧ n < e := by
  unfold cacheHit
  rcases s with ⟨ct, te⟩
  rcases ct with _ | t <;> rcases te with _ | e <;> simp
  intro h1 _
  omega

/-- When `reauthStep` succeeds, the token is nonempty and it is cached
with the one-hour window. -/
theorem reauthStep_ok_some (env : AuthEnv) (s : GpState) (lg0 : List Effect)
    (t : String) (s1 : GpState) (lg : List Effect)
    (h : reauthStep env s lg0 = ⟨.ok (some t), s1, lg⟩) :
    t ≠ "" ∧ s1 = ⟨some t, some (env.now + cacheWindowMs)⟩ := by
  unfold reauthStep at h
  split at h
  · simp at h
  · simp at h
  next tok =>
    split at h
    next hne =>
      rw [OpResult.mk.injEq] at h
      obtain ⟨h1, h2, _⟩ := h
      simp at h1
      subst h1
      exact ⟨hne, h2.symm⟩
    · simp at h

/-- When `getAccessToken` returns a token, a session exists, the token is
nonempty, and afterwards the cache holds exactly that token with an
expiry strictly later than `now`. -/
theorem getAccessToken_ok_some (env : AuthEnv) (s : GpState) (t : String)
    (s1 : GpState) (lg : List Effect)
    (h : getAccessToken env s = ⟨.ok (some t), s1, lg⟩) :
    env.currentUser = true ∧ t ≠ "" ∧ s1.cachedToken = some t ∧
      ∃ e, s1.tokenExpiry = some e ∧ env.now < e := by
  unfold getAccessToken at h
  split at h
  next hcu => simp_all
  next hcu =>
    rw [Bool.not_eq_false] at hcu
    split at h
    next hc =>
      obtain ⟨t', e, hct, ht', hte, hlt⟩ := (cacheHit_iff s env.now).mp hc
      rw [OpResult.mk.injEq] at h
      obtain ⟨h1, h2, _⟩ := h
      rw [hct] at h1
      simp at h1
      subst h1
      subst h2
      exact ⟨hcu, ht', hct, e, hte, hlt⟩
    next hc =>
      split at h
      · simp_all
      next provider heq =>
        split at h
        next hp =>
          split at h
          · simp_all
          next cred hcred =>
            split at h
            next hne =>
              rw [OpResult.mk.injEq] at h
              obtain ⟨h1, h2, _⟩ := h
              simp at h1
              subst h1
              subst h2
              exact ⟨hcu, hne, rfl, env.now + cacheWindowMs, rfl, by
                unfold cacheWindowMs; omega⟩
            next hne =>
              obtain ⟨h1, h2⟩ := reauthStep_ok_some env s _ t s1 lg h
              subst h2
              exact ⟨hcu, h1, rfl, env.now + cacheWindowMs, rfl, by
                unfold cacheWindowMs; omega⟩
        next hp =>
          obtain ⟨h1, h2⟩ := reauthStep_ok_some env s _ t s1 lg h
          subst h2
          exact ⟨hcu, h1, rfl, env.now + cacheWindowMs, rfl, by
            unfold cacheWindowMs; omega⟩

/-- After a successful `getAccessToken`, calling it again with the same
environment hits the cache: it returns the same token without effects
and without touching the state. -/
theorem getAccessToken_stable (env : AuthEnv) (s : GpState) (t : String)
    (s1 : GpState) (lg : List Effect)
    (h : getAccessToken env s = ⟨.ok (some t), s1, lg⟩) :
    getAccessToken env s1 = ⟨.ok (some t), s1, []⟩ := by
  obtain ⟨hcu, ht, hct, e, hte, hlt⟩ := getAccessToken_ok_some env s t s1 lg h
  have hc : cacheHit s1 env.now = true :=
    (cacheHit_iff s1 env.now).mpr ⟨t, e, hct, ht, hte, hlt⟩
  unfold getAccessToken
  rw [hcu, hc]
  simp [hct]

/-- The effect log of `getAccessToken` is one of five concrete
identity-provider call sequences; in particular it contains no HTTP
request to the photos API. -/
theorem getAccessToken_log_cases (env : AuthEnv) (s : GpState) :
    (getAccessToken env s).log = [] ∨
    (getAccessToken env s).log = [.fetchIdTokenResult] ∨
    (getAccessToken env s).log = [.fetchIdTokenResult, .fetchIdToken] ∨
    (getAccessToken env s).log = [.fetchIdTokenResult, .reauthPopup] ∨
    (getAccessToken env s).log = [.fetchIdTokenResult, .fetchIdToken, .reauthPopup] := by
  unfold getAccessToken reauthStep
  repeat' split
  all_goals simp

/-- No effect of `getAccessToken` is a photos-API HTTP request. -/
theorem getAccessToken_no_http (env : AuthEnv) (s : GpState) :
    ∀ e ∈ (getAccessToken env s).log, ∀ r, e ≠ Effect.http r := by
  rcases getAccessToken_log_cases env s with h | h | h | h | h <;>
    rw [h] <;> intro e he r <;> simp at he <;> rcases he with he | he | he <;>
      simp_all

/-- The spec-modelled server ignores the identity-provider effects of
`getAccessToken`: folding its log leaves the remote state unchanged. -/
theorem serverRunLog_getAccessToken (env : AuthEnv) (s : GpState)
    (rs : RemoteState) :
    serverRunLog rs (getAccessToken env s).log = rs := by
  rcases getAccessToken_log_cases env s with h | h | h | h | h <;>
    rw [h] <;> simp [serverRunLog]

/-- With no authenticated session, `getAccessToken` returns `ok none`
immediately, with no effects and no state change, whatever the cache
holds. -/
theorem getAccessToken_noUser (env : AuthEnv) (s : GpState)
    (h : env.currentUser = false) :
    getAccessToken env s = ⟨.ok none, s, []⟩ := by
  unfold getAccessToken
  rw [h]
  simp

/-- Behaviour of `listMediaItems` once token acquisition has succeeded. -/
theorem listMediaItems_run (env : AuthEnv)
    (listResp : Except String ListResponse) (s : GpState) (t : String)
    (s1 : GpState) (lg : List Effect)
    (hg : getAccessToken env s = ⟨.ok (some t), s1, lg⟩) :
    listMediaItems env listResp s =
      (match listResp with
       | .error msg =>
           ⟨.error (.network msg), s1,
             lg ++ [.http (.listItems 100 t)]⟩
       | .ok resp =>
         if respOk resp.status then
           match resp.mediaItems with
           | none => ⟨.ok [], s1, lg ++ [.http (.listItems 100 t)]⟩
           | some items =>
               ⟨.ok (items.map transformItem), s1,
                 lg ++ [.http (.listItems 100 t)]⟩
         else if resp.status = 401 then
           ⟨.error .authExpired, ⟨none, none⟩,
             lg ++ [.http (.listItems 100 t)]⟩
         else
           ⟨.error (.fetchMediaItemsFailed resp.status), s1,
             lg ++ [.http (.listItems 100 t)]⟩) := by
  have ht : t ≠ "" := (getAccessToken_ok_some env s t s1 lg hg).2.1
  unfold listMediaItems
  rw [hg]
  simp [ht]

/-- Behaviour of `archiveMediaItem` once token acquisition has succeeded. -/
theorem archiveMediaItem_run (env : AuthEnv) (modifyResp : Except String Nat)
    (id : String) (s : GpState) (t : String) (s1 : GpState) (lg : List Effect)
    (hg : getAccessToken env s = ⟨.ok (some t), s1, lg⟩) :
    archiveMediaItem env modifyResp id s =
      (match modifyResp with
       | .error _ =>
           ⟨.error (.actionFailed .archive), s1,
             lg ++ [.http (.batchModify id (archiveBody id) t)]⟩
       | .ok status =>
         if respOk status then
           ⟨.ok (), s1, lg ++ [.http (.batchModify id (archiveBody id) t)]⟩
         else
           ⟨.error (.actionFailed .archive), s1,
             lg ++ [.http (.batchModify id (archiveBody id) t)]⟩) := by
  have ht : t ≠ "" := (getAccessToken_ok_some env s t s1 lg hg).2.1
  unfold archiveMediaItem
  rw [hg]
  simp [ht]

/-- Behaviour of `favoriteMediaItem` once token acquisition has succeeded. -/
theorem favoriteMediaItem_run (env : AuthEnv) (modifyResp : Except String Nat)
    (id : String) (s : GpState) (t : String) (s1 : GpState) (lg : List Effect)
    (hg : getAccessToken env s = ⟨.ok (some t), s1, lg⟩) :
    favoriteMediaItem env modifyResp id s =
      (match modifyResp with
       | .error _ =>
           ⟨.error (.actionFailed .favorite), s1,
             lg ++ [.http (.batchModify id (favoriteBody id) t)]⟩
       | .ok status =>
         if respOk status then
           ⟨.ok (), s1, lg ++ [.http (.batchModify id (favoriteBody id) t)]⟩
         else
           ⟨.error (.actionFailed .favorite), s1,
             lg ++ [.http (.batchModify id (favoriteBody id) t)]⟩) := by
  have ht : t ≠ "" := (getAccessToken_ok_some env s t s1 lg hg).2.1
  unfold favoriteMediaItem
  rw [hg]
  simp [ht]

/-- Behaviour of `deleteMediaItem` once token acquisition has succeeded. -/
theorem deleteMediaItem_run (env : AuthEnv) (deleteResp : Except String Nat)
    (id : String) (s : GpState) (t : String) (s1 : GpState) (lg : List Effect)
    (hg : getAccessToken env s = ⟨.ok (some t), s1, lg⟩) :
    deleteMediaItem env deleteResp id s =
      (match deleteResp with
       | .error _ =>
           ⟨.error (.actionFailed .delete), s1,
             lg ++ [.http (.deleteItem id t)]⟩
       | .ok status =>
         if respOk status then
           ⟨.ok (), s1, lg ++ [.http (.deleteItem id t)]⟩
         else
           ⟨.error (.actionFailed .delete), s1,
             lg ++ [.http (.deleteItem id t)]⟩) := by
  have ht : t ≠ "" := (getAccessToken_ok_some env s t s1 lg hg).2.1
  unfold deleteMediaItem
  rw [hg]
  simp [ht]

/-- Both successful acquisition paths of `getAccessToken` cache the token
with the fixed window: on a result the state either is the untouched
cache-hit state or holds the token with expiry `now + cacheWindowMs`. -/
theorem getAccessToken_ok_some_state (env : AuthEnv) (s : GpState)
    (t : String) (s1 : GpState) (lg : List Effect)
    (h : getAccessToken env s = ⟨.ok (some t), s1, lg⟩) :
    (cacheHit s env.now = true ∧ s1 = s ∧ lg = []) ∨
      s1 = ⟨some t, some (env.now + cacheWindowMs)⟩ := by
  unfold getAccessToken at h
  split at h
  · simp_all
  split at h
  next hc =>
    rw [OpResult.mk.injEq] at h
    exact Or.inl ⟨hc, h.2.1.symm, h.2.2.symm⟩
  next hc =>
    split at h
    · simp_all
    next provider heq =>
      split at h
      next hp =>
        split at h
        · simp_all
        next cred hcred =>
          split at h
          next hne =>
            rw [OpResult.mk.injEq] at h
            obtain ⟨h1, h2, _⟩ := h
            simp at h1
            subst h1
            exact Or.inr h2.symm
          next hne =>
            exact Or.inr (reauthStep_ok_some env s _ t s1 lg h).2
      next hp =>
        exact Or.inr (reauthStep_ok_some env s _ t s1 lg h).2

/-- The `archiveBody` mask sets the archived flag and nothing else. -/
theorem applyMask_archiveBody (id : String) (it : RemoteItem) :
    applyMask (archiveBody id) it = ⟨it.favorite, true⟩ := by
  simp [applyMask, archiveBody]

/-- The `favoriteBody` mask sets the favorite flag and nothing else. -/
theorem applyMask_favoriteBody (id : String) (it : RemoteItem) :
    applyMask (favoriteBody id) it = ⟨true, it.archived⟩ := by
  simp [applyMask, favoriteBody]

/-- Shape of the remote transition for an archive request: exactly the
addressed item's archived flag is set; every other item and the favorite
flag are untouched. -/
theorem serverStep_archiveBody (rs : RemoteState) (u id tk : String) :
    serverStep rs (.batchModify u (archiveBody id) tk) =
      rs.map (fun p => if p.1 = id then (p.1, ⟨p.2.favorite, true⟩) else p) := by
  simp only [serverStep]
  congr 1
  funext p
  by_cases hp : p.1 = id <;> simp [archiveBody, hp, applyMask]

/-- Shape of the remote transition for a favorite request. -/
theorem serverStep_favoriteBody (rs : RemoteState) (u id tk : String) :
    serverStep rs (.batchModify u (favoriteBody id) tk) =
      rs.map (fun p => if p.1 = id then (p.1, ⟨true, p.2.archived⟩) else p) := by
  simp only [serverStep]
  congr 1
  funext p
  by_cases hp : p.1 = id <;> simp [favoriteBody, hp, applyMask]

/-- A `batchModify` whose mask application is idempotent gives an
idempotent remote transition. -/
theorem serverStep_idem (rs : RemoteState) (b : BatchModifyBody)
    (hb : ∀ it, applyMask b (applyMask b it) = applyMask b it)
    (u u2 tk tk2 : String) :
    serverStep (serverStep rs (.batchModify u b tk)) (.batchModify u2 b tk2) =
      serverStep rs (.batchModify u b tk) := by
  simp only [serverStep]
  rw [List.map_map]
  congr 1
  funext p
  by_cases hp : p.1 ∈ b.mediaItemIds <;> simp [Function.comp, hp, hb]

/-- list() on a success response carrying media items. -/
theorem listMediaItems_ok_items (env : AuthEnv) (s : GpState)
    (resp : ListResponse) (t : String) (s1 : GpState) (lg : List Effect)
    (items : List RawItem)
    (hg : getAccessToken env s = ⟨.ok (some t), s1, lg⟩)
    (hok : respOk resp.status = true) (hm : resp.mediaItems = some items) :
    listMediaItems env (.ok resp) s =
      ⟨.ok (items.map transformItem), s1, lg ++ [.http (.listItems 100 t)]⟩ := by
  have ht : t ≠ "" := (getAccessToken_ok_some env s t s1 lg hg).2.1
  unfold listMediaItems
  rw [hg]
  simp [ht, hok, hm]

/-- list() on a success response whose `mediaItems` field is absent. -/
theorem listMediaItems_ok_noItems (env : AuthEnv) (s : GpState)
    (resp : ListResponse) (t : String) (s1 : GpState) (lg : List Effect)
    (hg : getAccessToken env s = ⟨.ok (some t), s1, lg⟩)
    (hok : respOk resp.status = true) (hm : resp.mediaItems = none) :
    listMediaItems env (.ok resp) s =
      ⟨.ok [], s1, lg ++ [.http (.listItems 100 t)]⟩ := by
  have ht : t ≠ "" := (getAccessToken_ok_some env s t s1 lg hg).2.1
  unfold listMediaItems
  rw [hg]
  simp [ht, hok, hm]

/-- list() on an HTTP 401 response. -/
theorem listMediaItems_401 (env : AuthEnv) (s : GpState)
    (resp : ListResponse) (t : String) (s1 : GpState) (lg : List Effect)
    (hg : getAccessToken env s = ⟨.ok (some t), s1, lg⟩)
    (h401 : resp.status = 401) :
    listMediaItems env (.ok resp) s =
      ⟨.error .authExpired, ⟨none, none⟩,
        lg ++ [.http (.listItems 100 t)]⟩ := by
  have ht : t ≠ "" := (getAccessToken_ok_some env s t s1 lg hg).2.1
  unfold listMediaItems
  rw [hg]
  simp [ht, h401, respOk]

/-- Fixture: no authenticated session. -/
def envNoUser : AuthEnv :=
  { currentUser := false, now := 0,
    idTokenResult := .error "x", idToken := .error "x",
    reauthAccessToken := .error "x" }

/-- Fixture: an authenticated session at time 1000 whose identity
provider would reject every acquisition call (irrelevant on a cache
hit). -/
def envCached : AuthEnv :=
  { currentUser := true, now := 1000,
    idTokenResult := .error "x", idToken := .error "x",
    reauthAccessToken := .error "x" }

/-- Fixture: an authenticated session whose silent path yields the token
`idtok`. -/
def envSilent : AuthEnv :=
  { currentUser := true, now := 1000,
    idTokenResult := .ok (some "google.com"),
    idToken := .ok "idtok",
    reauthAccessToken := .error "closed" }

/-- Fixture: an authenticated session whose silent token call rejects
while an interactive re-authentication would have produced a fresh
token. -/
def envSilentThrow : AuthEnv :=
  { currentUser := true, now := 5,
    idTokenResult := .ok (some "google.com"),
    idToken := .error "netdown",
    reauthAccessToken := .ok (some "fresh") }

/-- Fixture: a cache holding the valid token `tok` until 999999. -/
def stCached : GpState := { cachedToken := some "tok", tokenExpiry := some 999999 }

/-- Fixture: the empty cache (initial module state). -/
def stEmpty : GpState := { cachedToken := none, tokenExpiry := none }

/-- C4: for every state of the token cache (including a valid, unexpired
cached token), if no authenticated session exists, each of list(),
favorite(id), archive(id) and delete(id) fails with NotAuthenticated
without issuing any HTTP request (the effect log is empty) and without
changing the cache. -/
theorem noSession_notAuthenticated (env : AuthEnv) (s : GpState)
    (listResp : Except String ListResponse)
    (modifyResp deleteResp : Except String Nat) (id : String)
    (h : env.currentUser = false) :
    listMediaItems env listResp s = ⟨.error .notAuthenticated, s, []⟩ ∧
    favoriteMediaItem env modifyResp id s = ⟨.error .notAuthenticated, s, []⟩ ∧
    archiveMediaItem env modifyResp id s = ⟨.error .notAuthenticated, s, []⟩ ∧
    deleteMediaItem env deleteResp id s = ⟨.error .notAuthenticated, s, []⟩ := by
  have hg : getAccessToken env s = ⟨.ok none, s, []⟩ := getAccessToken_noUser env s h
  refine ⟨?_, ?_, ?_, ?_⟩ <;>
    simp [listMediaItems, favoriteMediaItem, archiveMediaItem, deleteMediaItem, hg]

/-- Witness for C4: with no session and a valid cached token, all four
operations reject with NotAuthenticated, leave the cache alone and issue
no request. -/
theorem noSession_notAuthenticated_witness :
    envNoUser.currentUser = false ∧
    (listMediaItems envNoUser (.ok ⟨200, some []⟩) stCached =
        ⟨.error .notAuthenticated, stCached, []⟩ ∧
      favoriteMediaItem envNoUser (.ok 200) "a" stCached =
        ⟨.error .notAuthenticated, stCached, []⟩ ∧
      archiveMediaItem envNoUser (.ok 200) "a" stCached =
        ⟨.error .notAuthenticated, stCached, []⟩ ∧
      deleteMediaItem envNoUser (.ok 200) "a" stCached =
        ⟨.error .notAuthenticated, stCached, []⟩) :=
  ⟨rfl, noSession_notAuthenticated envNoUser stCached (.ok ⟨200, some []⟩)
    (.ok 200) (.ok 200) "a" rfl⟩

/-- C5: for every authenticated session with a cached token whose expiry
is still in the future, getToken() returns the cached value, performs
zero network/IO calls (empty effect log) and leaves the cache unchanged.
The hypothesis `t ≠ ""` reflects that the module only ever caches truthy
tokens, so the cached token is never the empty string. -/
theorem cachedToken_fastPath (env : AuthEnv) (s : GpState) (t : String)
    (e : Nat) (hu : env.currentUser = true) (hct : s.cachedToken = some t)
    (ht : t ≠ "") (hte : s.tokenExpiry = some e) (hlt : env.now < e) :
    getAccessToken env s = ⟨.ok (some t), s, []⟩ := by
  have hc : cacheHit s env.now = true :=
    (cacheHit_iff s env.now).mpr ⟨t, e, hct, ht, hte, hlt⟩
  unfold getAccessToken
  rw [hu, hc]
  simp [hct]

/-- Witness for C5: session present, `tok` cached until 999999, time
1000: the cached token is returned with an empty effect log. -/
theorem cachedToken_fastPath_witness :
    envCached.currentUser = true ∧ stCached.cachedToken = some "tok" ∧
    "tok" ≠ "" ∧ stCached.tokenExpiry = some 999999 ∧ envCached.now < 999999 ∧
    getAccessToken envCached stCached = ⟨.ok (some "tok"), stCached, []⟩ :=
  ⟨rfl, rfl, by decide, rfl, by decide,
    cachedToken_fastPath envCached stCached "tok" 999999 rfl rfl (by decide)
      rfl (by decide)⟩

/-- C3: when list() receives an HTTP 401 response it clears the cached
token and its expiry and fails with AuthExpired; afterwards the cleared
cache can never satisfy the fast-path check, so the next getToken() call
with a session does not return a stale cached value but starts
re-acquisition with the silent identity-provider call. -/
theorem list401_clears_and_reacquires (env : AuthEnv) (s : GpState)
    (resp : ListResponse) (t : String) (s1 : GpState) (lg : List Effect)
    (hg : getAccessToken env s = ⟨.ok (some t), s1, lg⟩)
    (h401 : resp.status = 401) :
    listMediaItems env (.ok resp) s =
      ⟨.error .authExpired, ⟨none, none⟩, lg ++ [.http (.listItems 100 t)]⟩ ∧
    (∀ n : Nat, cacheHit ⟨none, none⟩ n = false) ∧
    (∀ env2 : AuthEnv, env2.currentUser = true →
      ∃ rest, (getAccessToken env2 ⟨none, none⟩).log =
        Effect.fetchIdTokenResult :: rest) := by
  refine ⟨?_, fun n => rfl, fun env2 h2 => ?_⟩
  · exact listMediaItems_401 env s resp t s1 lg hg h401
  · have hc : cacheHit ⟨none, none⟩ env2.now = false := rfl
    unfold getAccessToken reauthStep
    simp only [h2, hc, Bool.true_eq_false, if_false]
    repeat' split
    all_goals try exact ⟨_, rfl⟩
    all_goals simp_all

/-- Witness for C3: valid cached token, list() answered with 401 — the
cache is cleared, the call fails with AuthExpired, and a later
getToken() with a session begins with the silent acquisition call. -/
theorem list401_clears_and_reacquires_witness :
    getAccessToken envCached stCached = ⟨.ok (some "tok"), stCached, []⟩ ∧
    (listMediaItems envCached (.ok ⟨401, none⟩) stCached =
        ⟨.error .authExpired, ⟨none, none⟩, [.http (.listItems 100 "tok")]⟩ ∧
      (∀ n : Nat, cacheHit ⟨none, none⟩ n = false) ∧
      (∀ env2 : AuthEnv, env2.currentUser = true →
        ∃ rest, (getAccessToken env2 ⟨none, none⟩).log =
          Effect.fetchIdTokenResult :: rest)) :=
  ⟨by decide, list401_clears_and_reacquires envCached stCached ⟨401, none⟩
    "tok" stCached [] (by decide) rfl⟩

/-- C7: on success list() returns the items of the single fetched page —
the one HTTP request it issues carries page size 100 and no continuation
token exists in the request type — with the fixed display-size suffix
appended to each baseUrl, and a response without media items yields the
empty sequence, not an error. -/
theorem list_success (env : AuthEnv) (s : GpState) (resp : ListResponse)
    (t : String) (s1 : GpState) (lg : List Effect)
    (hg : getAccessToken env s = ⟨.ok (some t), s1, lg⟩)
    (hok : respOk resp.status = true) :
    (listMediaItems env (.ok resp) s).result =
      .ok ((resp.mediaItems.getD []).map transformItem) ∧
    ((listMediaItems env (.ok resp) s).log.filter
        (fun e => match e with | .http _ => true | _ => false)) =
      [.http (.listItems 100 t)] ∧
    ((resp.mediaItems = none ∨ resp.mediaItems = some []) →
      (listMediaItems env (.ok resp) s).result = .ok []) ∧
    (∀ it : RawItem, (transformItem it).baseUrl = it.baseUrl ++ "=w1024-h1024") := by
  have hlg : (getAccessToken env s).log = lg := by rw [hg]
  have hfilter : lg.filter
      (fun e => match e with | .http _ => true | _ => false) = [] := by
    rw [← hlg]
    rcases getAccessToken_log_cases env s with h | h | h | h | h <;> rw [h] <;> rfl
  rcases hm : resp.mediaItems with _ | items
  · rw [listMediaItems_ok_noItems env s resp t s1 lg hg hok hm]
    refine ⟨rfl, ?_, fun _ => rfl, fun it => rfl⟩
    show (lg ++ [Effect.http (.listItems 100 t)]).filter _ = _
    rw [List.filter_append, hfilter]
    rfl
  · rw [listMediaItems_ok_items env s resp t s1 lg items hg hok hm]
    refine ⟨rfl, ?_, ?_, fun it => rfl⟩
    · show (lg ++ [Effect.http (.listItems 100 t)]).filter _ = _
      rw [List.filter_append, hfilter]
      rfl
    · rintro (h | h)
      · exact absurd h (by simp)
      · simp at h
        subst h
        rfl

/-- Witness for C7: a 200 response with two items is mapped with the
display-size suffix; a 200 response with no `mediaItems` field gives the
empty list. -/
theorem list_success_witness :
    getAccessToken envCached stCached = ⟨.ok (some "tok"), stCached, []⟩ ∧
    respOk 200 = true ∧
    ((listMediaItems envCached
        (.ok ⟨200, some [⟨"a", "urlA", some "a.jpg", some "image/jpeg"⟩,
                         ⟨"b", "urlB", none, none⟩]⟩) stCached).result =
      .ok [⟨"a", "urlA=w1024-h1024", some "a.jpg", some "image/jpeg"⟩,
           ⟨"b", "urlB=w1024-h1024", none, none⟩]) ∧
    (listMediaItems envCached (.ok ⟨200, none⟩) stCached).result = .ok [] := by
  refine ⟨by decide, by decide, ?_, ?_⟩
  · exact (list_success envCached stCached
      ⟨200, some [⟨"a", "urlA", some "a.jpg", some "image/jpeg"⟩,
                  ⟨"b", "urlB", none, none⟩]⟩
      "tok" stCached [] (by decide) (by decide)).1
  · exact (list_success envCached stCached ⟨200, none⟩ "tok" stCached []
      (by decide) (by decide)).2.2.1 (Or.inl rfl)

/-- C10: list() preserves the order of the remote response's media items
— the result is exactly the response list mapped by `transformItem` —
and the transformation keeps id, filename and mimeType unchanged,
modifying only baseUrl by appending "=w1024-h1024". -/
theorem list_preserves_items (env : AuthEnv) (s : GpState)
    (resp : ListResponse) (t : String) (s1 : GpState) (lg : List Effect)
    (items : List RawItem)
    (hg : getAccessToken env s = ⟨.ok (some t), s1, lg⟩)
    (hok : respOk resp.status = true) (hm : resp.mediaItems = some items) :
    (listMediaItems env (.ok resp) s).result = .ok (items.map transformItem) ∧
    (∀ it : RawItem, (transformItem it).id = it.id ∧
      (transformItem it).filename = it.filename ∧
      (transformItem it).mimeType = it.mimeType ∧
      (transformItem it).baseUrl = it.baseUrl ++ "=w1024-h1024") := by
  rw [listMediaItems_ok_items env s resp t s1 lg items hg hok hm]
  exact ⟨rfl, fun it => ⟨rfl, rfl, rfl, rfl⟩⟩

/-- Witness for C10: a two-item 200 response comes back in order with
only the baseUrl changed. -/
theorem list_preserves_items_witness :
    getAccessToken envCached stCached = ⟨.ok (some "tok"), stCached, []⟩ ∧
    respOk 200 = true ∧
    (listMediaItems envCached
        (.ok ⟨200, some [⟨"a", "urlA", some "a.jpg", none⟩,
                         ⟨"b", "urlB", none, some "video/mp4"⟩]⟩) stCached).result =
      .ok ([⟨"a", "urlA", some "a.jpg", none⟩,
            ⟨"b", "urlB", none, some "video/mp4"⟩].map transformItem) :=
  ⟨by decide, by decide,
    (list_preserves_items envCached stCached
      ⟨200, some [⟨"a", "urlA", some "a.jpg", none⟩,
                  ⟨"b", "urlB", none, some "video/mp4"⟩]⟩
      "tok" stCached [] [⟨"a", "urlA", some "a.jpg", none⟩,
                         ⟨"b", "urlB", none, some "video/mp4"⟩]
      (by decide) (by decide) rfl).1⟩

/-- C1 counterexample: with a valid cached credential, a 401 response to
archive (and favorite, and delete) leaves the cached token and expiry in
place — the claim that every operation invalidates the cache on 401 is
false for the mutation operations. -/
theorem mutation401_keeps_cache_cex :
    (archiveMediaItem envCached (.ok 401) "a" stCached).state = stCached ∧
    (favoriteMediaItem envCached (.ok 401) "a" stCached).state = stCached ∧
    (deleteMediaItem envCached (.ok 401) "a" stCached).state = stCached ∧
    stCached.cachedToken = some "tok" ∧ stCached.tokenExpiry = some 999999 := by
  decide

/-- C1 amended: only list() invalidates the cached credential on a 401
response; favorite, archive and delete fail with their ActionFailed
error and leave the cache state produced by token acquisition untouched
— it still holds the token. -/
theorem only_list_clears_on_401 (env : AuthEnv) (s : GpState) (id : String)
    (resp : ListResponse) (t : String) (s1 : GpState) (lg : List Effect)
    (hg : getAccessToken env s = ⟨.ok (some t), s1, lg⟩)
    (h401 : resp.status = 401) :
    (listMediaItems env (.ok resp) s).state = ⟨none, none⟩ ∧
    (listMediaItems env (.ok resp) s).result = .error .authExpired ∧
    archiveMediaItem env (.ok 401) id s =
      ⟨.error (.actionFailed .archive), s1,
        lg ++ [.http (.batchModify id (archiveBody id) t)]⟩ ∧
    favoriteMediaItem env (.ok 401) id s =
      ⟨.error (.actionFailed .favorite), s1,
        lg ++ [.http (.batchModify id (favoriteBody id) t)]⟩ ∧
    deleteMediaItem env (.ok 401) id s =
      ⟨.error (.actionFailed .delete), s1, lg ++ [.http (.deleteItem id t)]⟩ ∧
    s1.cachedToken = some t := by
  have h := listMediaItems_401 env s resp t s1 lg hg h401
  refine ⟨by rw [h], by rw [h], ?_, ?_, ?_,
    (getAccessToken_ok_some env s t s1 lg hg).2.2.1⟩
  · rw [archiveMediaItem_run env (.ok 401) id s t s1 lg hg]
    simp [respOk]
  · rw [favoriteMediaItem_run env (.ok 401) id s t s1 lg hg]
    simp [respOk]
  · rw [deleteMediaItem_run env (.ok 401) id s t s1 lg hg]
    simp [respOk]

/-- Witness for the amended C1: cached token, all four operations
answered with 401 — list clears the cache, the mutations keep it. -/
theorem only_list_clears_on_401_witness :
    getAccessToken envCached stCached = ⟨.ok (some "tok"), stCached, []⟩ ∧
    ((listMediaItems envCached (.ok ⟨401, none⟩) stCached).state =
        ⟨none, none⟩ ∧
      (listMediaItems envCached (.ok ⟨401, none⟩) stCached).result =
        .error .authExpired ∧
      archiveMediaItem envCached (.ok 401) "a" stCached =
        ⟨.error (.actionFailed .archive), stCached,
          [.http (.batchModify "a" (archiveBody "a") "tok")]⟩ ∧
      favoriteMediaItem envCached (.ok 401) "a" stCached =
        ⟨.error (.actionFailed .favorite), stCached,
          [.http (.batchModify "a" (favoriteBody "a") "tok")]⟩ ∧
      deleteMediaItem envCached (.ok 401) "a" stCached =
        ⟨.error (.actionFailed .delete), stCached,
          [.http (.deleteItem "a" "tok")]⟩ ∧
      stCached.cachedToken = some "tok") :=
  ⟨by decide, only_list_clears_on_401 envCached stCached "a" ⟨401, none⟩
    "tok" stCached [] (by decide) rfl⟩

/-- C2 counterexample: when the archive fetch rejects at transport level,
the caller receives a fresh ActionFailed error, not the original error
value — while list() re-raises the same transport error unchanged. -/
theorem archive_transforms_error_cex :
    (archiveMediaItem envSilent (.error "network down") "a" stEmpty).result =
      .error (.actionFailed .archive) ∧
    (archiveMediaItem envSilent (.error "network down") "a" stEmpty).result ≠
      .error (.network "network down") ∧
    (listMediaItems envSilent (.error "network down") stEmpty).result =
      .error (.network "network down") := by
  decide

/-- C2 amended: a failure of getToken() short-circuits every operation
and propagates unchanged with no HTTP request issued; list() re-raises
every in-try error unchanged as well; but favorite/archive/delete
replace any error occurring after token acquisition with a fresh
ActionFailed error of their own kind. -/
theorem error_propagation (envE : AuthEnv) (sE : GpState) (e : GpError)
    (sE1 : GpState) (lgE : List Effect) (envO : AuthEnv) (sO : GpState)
    (t : String) (sO1 : GpState) (lgO : List Effect) (id msg : String)
    (hgE : getAccessToken envE sE = ⟨.error e, sE1, lgE⟩)
    (hgO : getAccessToken envO sO = ⟨.ok (some t), sO1, lgO⟩) :
    (∀ listResp, listMediaItems envE listResp sE = ⟨.error e, sE1, lgE⟩) ∧
    (∀ resp, archiveMediaItem envE resp id sE = ⟨.error e, sE1, lgE⟩) ∧
    (∀ resp, favoriteMediaItem envE resp id sE = ⟨.error e, sE1, lgE⟩) ∧
    (∀ resp, deleteMediaItem envE resp id sE = ⟨.error e, sE1, lgE⟩) ∧
    (∀ e2 ∈ lgE, ∀ r, e2 ≠ Effect.http r) ∧
    (listMediaItems envO (.error msg) sO).result = .error (.network msg) ∧
    (archiveMediaItem envO (.error msg) id sO).result =
      .error (.actionFailed .archive) ∧
    (favoriteMediaItem envO (.error msg) id sO).result =
      .error (.actionFailed .favorite) ∧
    (deleteMediaItem envO (.error msg) id sO).result =
      .error (.actionFailed .delete) := by
  have hlg : (getAccessToken envE sE).log = lgE := by rw [hgE]
  refine ⟨fun lr => ?_, fun resp => ?_, fun resp => ?_, fun resp => ?_,
    ?_, ?_, ?_, ?_, ?_⟩
  · simp [listMediaItems, hgE]
  · simp [archiveMediaItem, hgE]
  · simp [favoriteMediaItem, hgE]
  · simp [deleteMediaItem, hgE]
  · rw [← hlg]
    exact getAccessToken_no_http envE sE
  · rw [listMediaItems_run envO (.error msg) sO t sO1 lgO hgO]
  · rw [archiveMediaItem_run envO (.error msg) id sO t sO1 lgO hgO]
  · rw [favoriteMediaItem_run envO (.error msg) id sO t sO1 lgO hgO]
  · rw [deleteMediaItem_run envO (.error msg) id sO t sO1 lgO hgO]

/-- Witness for the amended C2: a token-acquisition failure propagates
unchanged through archive; with a token, a transport rejection surfaces
unchanged from list but as ActionFailed from archive. -/
theorem error_propagation_witness :
    getAccessToken envCached stEmpty =
      ⟨.error .failedToGetToken, stEmpty, [.fetchIdTokenResult]⟩ ∧
    getAccessToken envSilent stEmpty =
      ⟨.ok (some "idtok"), ⟨some "idtok", some (1000 + cacheWindowMs)⟩,
        [.fetchIdTokenResult, .fetchIdToken]⟩ ∧
    archiveMediaItem envCached (.ok 200) "a" stEmpty =
      ⟨.error .failedToGetToken, stEmpty, [.fetchIdTokenResult]⟩ ∧
    (listMediaItems envSilent (.error "boom") stEmpty).result =
      .error (.network "boom") ∧
    (archiveMediaItem envSilent (.error "boom") "a" stEmpty).result =
      .error (.actionFailed .archive) :=
  ⟨by decide, by decide,
    (error_propagation envCached stEmpty .failedToGetToken stEmpty
      [.fetchIdTokenResult] envSilent stEmpty "idtok"
      ⟨some "idtok", some (1000 + cacheWindowMs)⟩
      [.fetchIdTokenResult, .fetchIdToken] "a" "boom"
      (by decide) (by decide)).2.1 (.ok 200),
    (error_propagation envCached stEmpty .failedToGetToken stEmpty
      [.fetchIdTokenResult] envSilent stEmpty "idtok"
      ⟨some "idtok", some (1000 + cacheWindowMs)⟩
      [.fetchIdTokenResult, .fetchIdToken] "a" "boom"
      (by decide) (by decide)).2.2.2.2.2.1,
    (error_propagation envCached stEmpty .failedToGetToken stEmpty
      [.fetchIdTokenResult] envSilent stEmpty "idtok"
      ⟨some "idtok", some (1000 + cacheWindowMs)⟩
      [.fetchIdTokenResult, .fetchIdToken] "a" "boom"
      (by decide) (by decide)).2.2.2.2.2.2.1⟩

/-- C6 counterexample: silent token retrieval fails by rejecting
(`user.getIdToken()` throws) while an interactive re-authentication
would have produced a fresh token; the code does not fall back to the
popup — it fails with the token-acquisition error and the log shows no
interactive re-authentication. -/
theorem silentThrow_no_fallback_cex :
    getAccessToken envSilentThrow stEmpty =
      ⟨.error .failedToGetToken, stEmpty,
        [.fetchIdTokenResult, .fetchIdToken]⟩ ∧
    Effect.reauthPopup ∉ (getAccessToken envSilentThrow stEmpty).log ∧
    envSilentThrow.reauthAccessToken = .ok (some "fresh") := by
  decide

/-- C6 amended: on a cache miss with a session, getToken() first issues
the silent identity-provider call; it falls back to the interactive
re-authentication when the sign-in provider is not google.com or when
the silent retrieval returns no (falsy) token — but when the silent
retrieval rejects, the whole acquisition fails with the
token-acquisition error and no popup is shown; a token obtained by
either path is cached with the fixed one-hour window measured from
acquisition time. -/
theorem acquisition_paths (env : AuthEnv) (s : GpState)
    (hu : env.currentUser = true) (hmiss : cacheHit s env.now = false) :
    (∃ rest, (getAccessToken env s).log = Effect.fetchIdTokenResult :: rest) ∧
    (∀ p, env.idTokenResult = .ok p → p ≠ some "google.com" →
      Effect.reauthPopup ∈ (getAccessToken env s).log) ∧
    (env.idTokenResult = .ok (some "google.com") → env.idToken = .ok "" →
      Effect.reauthPopup ∈ (getAccessToken env s).log) ∧
    (∀ m, env.idTokenResult = .ok (some "google.com") → env.idToken = .error m →
      getAccessToken env s =
        ⟨.error .failedToGetToken, s, [.fetchIdTokenResult, .fetchIdToken]⟩) ∧
    (∀ t s1 lg, getAccessToken env s = ⟨.ok (some t), s1, lg⟩ →
      s1 = ⟨some t, some (env.now + cacheWindowMs)⟩) ∧
    cacheWindowMs = 3600000 := by
  refine ⟨?_, ?_, ?_, ?_, ?_, rfl⟩
  · unfold getAccessToken reauthStep
    simp only [hu, hmiss, Bool.true_eq_false, if_false]
    repeat' split
    all_goals try exact ⟨_, rfl⟩
    all_goals simp_all
  · intro p hitr hp
    unfold getAccessToken reauthStep
    simp only [hu, hmiss, hitr, hp, Bool.true_eq_false, if_false]
    repeat' split
    all_goals simp_all
  · intro hitr hit
    unfold getAccessToken reauthStep
    simp only [hu, hmiss, hitr, hit, Bool.true_eq_false, if_false]
    repeat' split
    all_goals simp_all
  · intro m hitr hit
    unfold getAccessToken
    simp [hu, hmiss, hitr, hit]
  · intro t s1 lg hg
    rcases getAccessToken_ok_some_state env s t s1 lg hg with ⟨hc, _, _⟩ | h
    · rw [hmiss] at hc
      exact absurd hc (by simp)
    · exact h

/-- Witness for the amended C6: a cache miss with a google.com session
whose silent call yields `idtok` — the first effect is the silent call
and the token is cached with the one-hour window from acquisition. -/
theorem acquisition_paths_witness :
    envSilent.currentUser = true ∧ cacheHit stEmpty envSilent.now = false ∧
    (∃ rest, (getAccessToken envSilent stEmpty).log =
      Effect.fetchIdTokenResult :: rest) ∧
    (∀ t s1 lg, getAccessToken envSilent stEmpty = ⟨.ok (some t), s1, lg⟩ →
      s1 = ⟨some t, some (envSilent.now + cacheWindowMs)⟩) :=
  ⟨rfl, rfl, (acquisition_paths envSilent stEmpty rfl rfl).1,
    (acquisition_paths envSilent stEmpty rfl rfl).2.2.2.2.1⟩

/-- Appending one HTTP request to a log applies one server step. -/
theorem serverRunLog_append_http (rs : RemoteState) (lg : List Effect)
    (r : ApiRequest) :
    serverRunLog rs (lg ++ [.http r]) = serverStep (serverRunLog rs lg) r := by
  unfold serverRunLog
  rw [List.foldl_append]
  rfl

/-- The archive mask is idempotent on an item. -/
theorem applyMask_archiveBody_idem (id : String) (it : RemoteItem) :
    applyMask (archiveBody id) (applyMask (archiveBody id) it) =
      applyMask (archiveBody id) it := by
  simp [applyMask_archiveBody]

/-- The favorite mask is idempotent on an item. -/
theorem applyMask_favoriteBody_idem (id : String) (it : RemoteItem) :
    applyMask (favoriteBody id) (applyMask (favoriteBody id) it) =
      applyMask (favoriteBody id) it := by
  simp [applyMask_favoriteBody]

/-- C8: against the spec-modelled remote API, favorite(id) and
archive(id) are idempotent — running the operation a second time from
the client and remote state left by the first run keeps the remote state
identical, and the second call succeeds rather than failing because the
flag is already set. -/
theorem mutations_idempotent (env : AuthEnv) (id : String) (s : GpState)
    (rs : RemoteState) (t : String) (s1 : GpState) (lg : List Effect)
    (hg : getAccessToken env s = ⟨.ok (some t), s1, lg⟩) :
    ((archiveSystem env id ((archiveSystem env id s rs).state)
        ((archiveSystem env id s rs).remote)).remote =
      (archiveSystem env id s rs).remote ∧
     (archiveSystem env id ((archiveSystem env id s rs).state)
        ((archiveSystem env id s rs).remote)).result = .ok ()) ∧
    ((favoriteSystem env id ((favoriteSystem env id s rs).state)
        ((favoriteSystem env id s rs).remote)).remote =
      (favoriteSystem env id s rs).remote ∧
     (favoriteSystem env id ((favoriteSystem env id s rs).state)
        ((favoriteSystem env id s rs).remote)).result = .ok ()) := by
  have hstable := getAccessToken_stable env s t s1 lg hg
  have hrunlog : serverRunLog rs lg = rs := by
    have hlg : (getAccessToken env s).log = lg := by rw [hg]
    rw [← hlg]
    exact serverRunLog_getAccessToken env s rs
  constructor
  · have ha1 : archiveMediaItem env serverBatchModifyStatus id s =
        ⟨.ok (), s1, lg ++ [.http (.batchModify id (archiveBody id) t)]⟩ := by
      rw [archiveMediaItem_run env serverBatchModifyStatus id s t s1 lg hg]
      rfl
    have ha2 : archiveMediaItem env serverBatchModifyStatus id s1 =
        ⟨.ok (), s1, [.http (.batchModify id (archiveBody id) t)]⟩ := by
      rw [archiveMediaItem_run env serverBatchModifyStatus id s1 t s1 [] hstable]
      rfl
    have e1 : archiveSystem env id s rs =
        ⟨.ok (), s1, serverStep rs (.batchModify id (archiveBody id) t)⟩ := by
      unfold archiveSystem
      rw [ha1]
      show (⟨.ok (), s1, serverRunLog rs
        (lg ++ [.http (.batchModify id (archiveBody id) t)])⟩ : SysResult) = _
      rw [serverRunLog_append_http, hrunlog]
    have e2 : archiveSystem env id s1
        (serverStep rs (.batchModify id (archiveBody id) t)) =
        ⟨.ok (), s1, serverStep rs (.batchModify id (archiveBody id) t)⟩ := by
      unfold archiveSystem
      rw [ha2]
      show (⟨.ok (), s1, serverRunLog
        (serverStep rs (.batchModify id (archiveBody id) t))
        [.http (.batchModify id (archiveBody id) t)]⟩ : SysResult) = _
      show (⟨.ok (), s1, serverStep
        (serverStep rs (.batchModify id (archiveBody id) t))
        (.batchModify id (archiveBody id) t)⟩ : SysResult) = _
      rw [serverStep_idem rs (archiveBody id)
        (applyMask_archiveBody_idem id) id id t t]
    rw [e1]
    exact ⟨by rw [e2], by rw [e2]⟩
  · have ha1 : favoriteMediaItem env serverBatchModifyStatus id s =
        ⟨.ok (), s1, lg ++ [.http (.batchModify id (favoriteBody id) t)]⟩ := by
      rw [favoriteMediaItem_run env serverBatchModifyStatus id s t s1 lg hg]
      rfl
    have ha2 : favoriteMediaItem env serverBatchModifyStatus id s1 =
        ⟨.ok (), s1, [.http (.batchModify id (favoriteBody id) t)]⟩ := by
      rw [favoriteMediaItem_run env serverBatchModifyStatus id s1 t s1 [] hstable]
      rfl
    have e1 : favoriteSystem env id s rs =
        ⟨.ok (), s1, serverStep rs (.batchModify id (favoriteBody id) t)⟩ := by
      unfold favoriteSystem
      rw [ha1]
      show (⟨.ok (), s1, serverRunLog rs
        (lg ++ [.http (.batchModify id (favoriteBody id) t)])⟩ : SysResult) = _
      rw [serverRunLog_append_http, hrunlog]
    have e2 : favoriteSystem env id s1
        (serverStep rs (.batchModify id (favoriteBody id) t)) =
        ⟨.ok (), s1, serverStep rs (.batchModify id (favoriteBody id) t)⟩ := by
      unfold favoriteSystem
      rw [ha2]
      show (⟨.ok (), s1, serverRunLog
        (serverStep rs (.batchModify id (favoriteBody id) t))
        [.http (.batchModify id (favoriteBody id) t)]⟩ : SysResult) = _
      show (⟨.ok (), s1, serverStep
        (serverStep rs (.batchModify id (favoriteBody id) t))
        (.batchModify id (favoriteBody id) t)⟩ : SysResult) = _
      rw [serverStep_idem rs (favoriteBody id)
        (applyMask_favoriteBody_idem id) id id t t]
    rw [e1]
    exact ⟨by rw [e2], by rw [e2]⟩

/-- Fixture: a small remote library with two unflagged items. -/
def rsW : RemoteState := [("a", ⟨false, false⟩), ("b", ⟨false, false⟩)]

/-- Witness for C8: archiving and favoriting item `a` twice in the
two-item library ends in the same remote state as once, and the second
call succeeds. -/
theorem mutations_idempotent_witness :
    getAccessToken envCached stCached = ⟨.ok (some "tok"), stCached, []⟩ ∧
    (((archiveSystem envCached "a" ((archiveSystem envCached "a" stCached rsW).state)
        ((archiveSystem envCached "a" stCached rsW).remote)).remote =
      (archiveSystem envCached "a" stCached rsW).remote ∧
     (archiveSystem envCached "a" ((archiveSystem envCached "a" stCached rsW).state)
        ((archiveSystem envCached "a" stCached rsW).remote)).result = .ok ()) ∧
    ((favoriteSystem envCached "a" ((favoriteSystem envCached "a" stCached rsW).state)
        ((favoriteSystem envCached "a" stCached rsW).remote)).remote =
      (favoriteSystem envCached "a" stCached rsW).remote ∧
     (favoriteSystem envCached "a" ((favoriteSystem envCached "a" stCached rsW).state)
        ((favoriteSystem envCached "a" stCached rsW).remote)).result = .ok ())) :=
  ⟨by decide, mutations_idempotent envCached "a" stCached rsW "tok" stCached []
    (by decide)⟩

/-- The effect log of archive() is the acquisition log, possibly
followed by the single batchModify request for the given id. -/
theorem archiveMediaItem_log_shape (env : AuthEnv)
    (resp : Except String Nat) (id : String) (s : GpState) :
    (archiveMediaItem env resp id s).log = (getAccessToken env s).log ∨
    ∃ tk, (archiveMediaItem env resp id s).log =
      (getAccessToken env s).log ++
        [.http (.batchModify id (archiveBody id) tk)] := by
  unfold archiveMediaItem
  rcases hres : (getAccessToken env s).result with e | tkOpt <;>
    simp only [hres]
  · left; trivial
  rcases tkOpt with _ | token
  · left; trivial
  by_cases htk : token = ""
  · simp only [htk, if_pos]
    left; trivial
  simp only [if_neg htk]
  rcases resp with msg | status
  · right; exact ⟨token, rfl⟩
  by_cases hst : respOk status = true <;> simp only [hst, if_pos, if_neg] <;>
    right <;> exact ⟨token, rfl⟩

/-- The effect log of favorite() is the acquisition log, possibly
followed by the single batchModify request for the given id. -/
theorem favoriteMediaItem_log_shape (env : AuthEnv)
    (resp : Except String Nat) (id : String) (s : GpState) :
    (favoriteMediaItem env resp id s).log = (getAccessToken env s).log ∨
    ∃ tk, (favoriteMediaItem env resp id s).log =
      (getAccessToken env s).log ++
        [.http (.batchModify id (favoriteBody id) tk)] := by
  unfold favoriteMediaItem
  rcases hres : (getAccessToken env s).result with e | tkOpt <;>
    simp only [hres]
  · left; trivial
  rcases tkOpt with _ | token
  · left; trivial
  by_cases htk : token = ""
  · simp only [htk, if_pos]
    left; trivial
  simp only [if_neg htk]
  rcases resp with msg | status
  · right; exact ⟨token, rfl⟩
  by_cases hst : respOk status = true <;> simp only [hst, if_pos, if_neg] <;>
    right <;> exact ⟨token, rfl⟩

/-- C9: every batchModify request issued by archive(id)/favorite(id)
carries exactly the one given id in its body and URL and sets exactly
one field (archive, resp. favorite) to true with the other field absent;
consequently applying such a request to the spec-modelled remote state
changes at most the one flag of the one addressed item, so no partial
mutation is possible and a rejected request leaves every item
unchanged. -/
theorem mutation_request_scope (env : AuthEnv) (resp : Except String Nat)
    (id : String) (s : GpState) :
    (∀ e ∈ (archiveMediaItem env resp id s).log, ∀ u b tk,
        e = .http (.batchModify u b tk) → u = id ∧ b = archiveBody id) ∧
    (∀ e ∈ (favoriteMediaItem env resp id s).log, ∀ u b tk,
        e = .http (.batchModify u b tk) → u = id ∧ b = favoriteBody id) ∧
    (archiveBody id).mediaItemIds = [id] ∧
    (archiveBody id).archive = some true ∧
    (archiveBody id).favorite = none ∧
    (favoriteBody id).mediaItemIds = [id] ∧
    (favoriteBody id).favorite = some true ∧
    (favoriteBody id).archive = none ∧
    (∀ (rs : RemoteState) (tk : String),
      serverStep rs (.batchModify id (archiveBody id) tk) =
        rs.map (fun p => if p.1 = id then (p.1, ⟨p.2.favorite, true⟩) else p)) ∧
    (∀ (rs : RemoteState) (tk : String),
      serverStep rs (.batchModify id (favoriteBody id) tk) =
        rs.map (fun p => if p.1 = id then (p.1, ⟨true, p.2.archived⟩) else p)) := by
  refine ⟨?_, ?_, rfl, rfl, rfl, rfl, rfl, rfl,
    fun rs tk => serverStep_archiveBody rs id id tk,
    fun rs tk => serverStep_favoriteBody rs id id tk⟩
  · intro e he u b tk heq
    rcases archiveMediaItem_log_shape env resp id s with h | ⟨tk2, h⟩
    · rw [h] at he
      exact absurd heq (getAccessToken_no_http env s e he _)
    · rw [h] at he
      rcases List.mem_append.mp he with he2 | he2
      · exact absurd heq (getAccessToken_no_http env s e he2 _)
      · simp only [List.mem_singleton] at he2
        subst he2
        simp only [Effect.http.injEq, ApiRequest.batchModify.injEq] at heq
        exact ⟨heq.1.symm, heq.2.1.symm⟩
  · intro e he u b tk heq
    rcases favoriteMediaItem_log_shape env resp id s with h | ⟨tk2, h⟩
    · rw [h] at he
      exact absurd heq (getAccessToken_no_http env s e he _)
    · rw [h] at he
      rcases List.mem_append.mp he with he2 | he2
      · exact absurd heq (getAccessToken_no_http env s e he2 _)
      · simp only [List.mem_singleton] at he2
        subst he2
        simp only [Effect.http.injEq, ApiRequest.batchModify.injEq] at heq
        exact ⟨heq.1.symm, heq.2.1.symm⟩

/-- Witness for C9: the one request archive("a") issues is the
batchModify addressed to "a" with the archive-only body. -/
theorem mutation_request_scope_witness :
    Effect.http (.batchModify "a" (archiveBody "a") "tok") ∈
      (archiveMediaItem envCached (.ok 200) "a" stCached).log ∧
    ("a" = "a" ∧ archiveBody "a" = archiveBody "a") :=
  ⟨by decide, (mutation_request_scope envCached (.ok 200) "a" stCached).1
    (Effect.http (.batchModify "a" (archiveBody "a") "tok")) (by decide)
    "a" (archiveBody "a") "tok" rfl⟩
